import Mathlib

/-!
Shallow embedding of the AI query relay of the reliableparts-dashboard
repository (file `app/api/ai/route.ts`, exported handler `POST`).

The handler is a stateless request/response function once its external
effects are made explicit, so it is embedded as a pure Lean function of:
the model credential from the environment, the outcome of reading the
request body, the outcome of the catalog fetch, the outcome of the
model call, and the behaviour of the external `JSON.parse` library call
(abstracted as a `String → Option AiRaw` argument, since its internals
are not part of this repository).

Modelling conventions:
* JavaScript strings are Lean `String`s; `substring`/`includes` index by
  UTF-16 units in JavaScript and by characters here, which agree on the
  inputs exercised below.
* A product `price` is carried as its decimal text rendering, because the
  route only ever interpolates it into an answer string.
* A JSON field that is absent (JavaScript `undefined`) is `none`.
* JavaScript truthiness is modelled where the route relies on it:
  the empty string is falsy, an array (even the empty array) is truthy.
-/

/-- Character used in place of the literal opening-brace character. -/
def braceOpen : Char := Char.ofNat 123

/-- Character used in place of the literal closing-brace character. -/
def braceClose : Char := Char.ofNat 125

/-- Boolean test that the second character list begins with the first. -/
def beginsWith : List Char → List Char → Bool
  | [], _ => true
  | _ :: _, [] => false
  | a :: as, b :: bs => a == b && beginsWith as bs

/-- Boolean substring test on character lists. -/
def hasSub (needle : List Char) : List Char → Bool
  | [] => beginsWith needle []
  | c :: rest => beginsWith needle (c :: rest) || hasSub needle rest

/-- JavaScript `s.includes(sub)`. -/
def strIncludes (s sub : String) : Bool := hasSub sub.data s.data

/-- JavaScript `s.toLowerCase()` (ASCII case folding suffices here). -/
def lowerStr (s : String) : String := ⟨s.data.map Char.toLower⟩

/-- A product record as fetched from the catalog read endpoint, reduced to
the fields the route reads (`sku`, `name`, `category`, `manufacturer`,
`price`, `in_stock`). -/
structure Product where
  sku : String
  name : String
  category : String
  manufacturer : String
  price : String
  in_stock : Bool
deriving DecidableEq, Repr

/-- The three fields the route reads off the parsed model JSON
(`answer`, `productSkus`, `suggestions`); `none` models an absent field. -/
structure AiRaw where
  answer : Option String
  productSkus : Option (List String)
  suggestions : Option (List String)
deriving DecidableEq, Repr

/-- The JSON body and status of a `NextResponse` produced by the route.
A body field is `none` when the returned object does not carry it at all. -/
structure RouteResponse where
  status : Nat
  error : Option String
  answer : Option String
  recommendedProducts : Option (List Product)
  relatedSuggestions : Option (List String)
deriving DecidableEq, Repr

/-- A route invocation result together with which upstream calls the
handler reached: the catalog fetch (route.ts line 20) and the model call
(route.ts line 62). -/
structure RouteTrace where
  response : RouteResponse
  catalogFetchAttempted : Bool
  modelCallAttempted : Bool
deriving DecidableEq, Repr

/-- Outcome of `request.json()` followed by reading the `query` field:
`malformed` when `request.json()` throws (caught by the outer handler),
otherwise the optional `query` string (`none` when the field is absent). -/
inductive BodyOutcome where
  | malformed
  | ok (query : Option String)

/-- Outcome of the catalog fetch of route.ts lines 19-24; on `err` the
handler keeps the initial empty product list. -/
inductive FetchOutcome where
  | err
  | ok (products : List Product)

/-- Outcome of the model call of route.ts lines 62-64: `err` when the call
throws, otherwise the raw response text. -/
inductive ModelOutcome where
  | err
  | ok (text : String)

/-- Substring filter predicate used inside the model branch fallbacks
(route.ts lines 93-97 and 116-120): name, category and sku only. -/
def matchThree (queryLower : String) (p : Product) : Bool :=
  strIncludes (lowerStr p.name) queryLower ||
  strIncludes (lowerStr p.category) queryLower ||
  strIncludes (lowerStr p.sku) queryLower

/-- Substring filter predicate used on the no-credential path
(route.ts lines 139-144): name, category, sku and manufacturer. -/
def matchFour (queryLower : String) (p : Product) : Bool :=
  strIncludes (lowerStr p.name) queryLower ||
  strIncludes (lowerStr p.category) queryLower ||
  strIncludes (lowerStr p.sku) queryLower ||
  strIncludes (lowerStr p.manufacturer) queryLower

/-- The three-field basic filter with its cap (`.filter(...).slice(0, 5)`). -/
def basicFilterThree (products : List Product) (queryLower : String) : List Product :=
  (products.filter (matchThree queryLower)).take 5

/-- The four-field basic filter with its cap (`.filter(...).slice(0, 5)`). -/
def basicFilterFour (products : List Product) (queryLower : String) : List Product :=
  (products.filter (matchFour queryLower)).take 5

/-- Route.ts lines 86-88: map model-returned SKUs back to full product
records (`products.filter(p => productSkus.includes(p.sku)).slice(0, 5)`). -/
def mapSkus (products : List Product) (skus : List String) : List Product :=
  (products.filter (fun p => skus.contains p.sku)).take 5

/-- Index of the first occurrence of a character in a list. -/
def firstIdxOf (c : Char) : List Char → Option Nat
  | [] => none
  | a :: as => if a = c then some 0 else (firstIdxOf c as).map (· + 1)

/-- Index of the last occurrence of a character in a list. -/
def lastIdxOf (c : Char) (cs : List Char) : Option Nat :=
  (firstIdxOf c cs.reverse).map (fun k => cs.length - 1 - k)

/-- Route.ts line 70: the JSON extraction `text.match(...)` with the regex
that matches from an opening brace, through anything, to a closing brace.
Because the quantifier is greedy and the match is leftmost, the matched
substring runs from the first opening brace of the text to the last closing
brace, provided the former strictly precedes the latter. -/
def jsonMatch (text : String) : Option String :=
  let cs := text.data
  match firstIdxOf braceOpen cs, lastIdxOf braceClose cs with
  | some i, some j => if i < j then some ⟨(cs.drop i).take (j - i + 1)⟩ else none
  | some _, none => none
  | none, _ => none

/-- Route.ts lines 78-82: the degraded `aiResponse` built when extraction or
parsing fails: the raw text truncated to 500 units as the answer, with empty
SKU and suggestion arrays. -/
def degradeRaw (text : String) : AiRaw :=
  { answer := some ⟨text.data.take 500⟩, productSkus := some [], suggestions := some [] }

/-- Route.ts lines 66-83: extract a JSON candidate with `jsonMatch` and run
the external `JSON.parse` (the `parse` argument; `none` models a throw),
degrading to `degradeRaw` when either step fails. -/
def aiParse (parse : String → Option AiRaw) (text : String) : AiRaw :=
  match jsonMatch text with
  | some s =>
    match parse s with
    | some r => r
    | none => degradeRaw text
  | none => degradeRaw text

/-- JavaScript `x || d` for an optional string `x`: the default is used when
the field is absent or the empty string (both falsy). -/
def orDefaultStr (x : Option String) (d : String) : String :=
  match x with
  | some s => if s = "" then d else s
  | none => d

/-- The fixed suggestion pool of route.ts lines 105-109 (model branch,
used when the parsed object lacks a truthy `suggestions` field). -/
def aiDefaultSuggestions : List String :=
  ["Try filtering by brand", "Check product compatibility", "View similar items"]

/-- The fixed suggestion pool of route.ts lines 129-133 (model call failed). -/
def modelErrorSuggestions : List String :=
  ["Check product availability", "View specifications", "Compare prices"]

/-- The fixed suggestion pool of route.ts lines 153-157 (no credential). -/
def noKeySuggestions : List String :=
  ["Try searching by brand", "Look for specific part types", "Check compatibility"]

/-- The fixed suggestion pool of route.ts line 168 (outer catch). -/
def errorSuggestions : List String :=
  ["Try a simpler search", "Contact support", "Browse categories"]

/-- The default answer of route.ts line 103. -/
def defaultAiAnswer (n : Nat) : String :=
  "I found " ++ toString n ++ " products that might interest you."

/-- The templated answer of route.ts lines 123-127 (model call failed). -/
def modelErrorAnswer (query : String) (filtered : List Product) : String :=
  "I found " ++ toString filtered.length ++ " products matching \"" ++ query ++ "\". " ++
  (match filtered with
   | p :: _ => "The top result is " ++ p.name ++ "."
   | [] => "Try searching for specific brands or product types.")

/-- The templated answer of route.ts lines 147-151 (no credential). -/
def noKeyAnswer (query : String) (filtered : List Product) : String :=
  "Found " ++ toString filtered.length ++ " products matching \"" ++ query ++ "\". " ++
  (match filtered with
   | p :: _ => "Top result: " ++ p.name ++ " (" ++ p.sku ++ ") - $" ++ p.price
   | [] => "Try searching for brands like Whirlpool, GE, or product types like pump, filter.")

/-- Route.ts line 14: the 400 response; its body carries only `error`. -/
def invalidInputResponse : RouteResponse :=
  { status := 400, error := some "Query is required",
    answer := none, recommendedProducts := none, relatedSuggestions := none }

/-- Route.ts lines 163-171: the 500 response of the outer catch. -/
def errorResponse : RouteResponse :=
  { status := 500, error := some "Failed to process query",
    answer := some "Sorry, I encountered an error. Please try again.",
    recommendedProducts := some [], relatedSuggestions := some errorSuggestions }

/-- Route.ts lines 85-110: the model branch after a successful model call. -/
def modelSuccessBranch (parse : String → Option AiRaw) (query : String)
    (products : List Product) (text : String) : RouteResponse :=
  let aiResponse := aiParse parse text
  let mapped := match aiResponse.productSkus with
    | some skus => mapSkus products skus
    | none => []
  let recommended :=
    if mapped.length = 0 then basicFilterThree products (lowerStr query) else mapped
  { status := 200
    error := none
    answer := some (orDefaultStr aiResponse.answer (defaultAiAnswer recommended.length))
    recommendedProducts := some recommended
    relatedSuggestions := some (match aiResponse.suggestions with
      | some l => l
      | none => aiDefaultSuggestions) }

/-- Route.ts lines 112-135: the fallback taken when the model call throws. -/
def modelErrorBranch (query : String) (products : List Product) : RouteResponse :=
  let filtered := basicFilterThree products (lowerStr query)
  { status := 200, error := none,
    answer := some (modelErrorAnswer query filtered),
    recommendedProducts := some filtered,
    relatedSuggestions := some modelErrorSuggestions }

/-- Route.ts lines 136-159: the branch taken when no credential is set. -/
def noKeyBranch (query : String) (products : List Product) : RouteResponse :=
  let filtered := basicFilterFour products (lowerStr query)
  { status := 200, error := none,
    answer := some (noKeyAnswer query filtered),
    recommendedProducts := some filtered,
    relatedSuggestions := some noKeySuggestions }

/-- Shallow embedding of the exported handler of `app/api/ai/route.ts`.
The arguments expose the external effects: the optional model credential
(`process.env.GEMINI_API_KEY`; an unset or empty value is falsy), the body
read, the catalog fetch, the model call, and the external JSON parser. -/
def POST (geminiKey : Option String) (body : BodyOutcome) (fetch : FetchOutcome)
    (model : ModelOutcome) (parse : String → Option AiRaw) : RouteTrace :=
  match body with
  | .malformed => ⟨errorResponse, false, false⟩
  | .ok q =>
    match q with
    | none => ⟨invalidInputResponse, false, false⟩
    | some query =>
      if query = "" then ⟨invalidInputResponse, false, false⟩
      else
        let products := match fetch with
          | .err => []
          | .ok ps => ps
        match geminiKey with
        | some key =>
          if key = "" then ⟨noKeyBranch query products, true, false⟩
          else
            match model with
            | .err => ⟨modelErrorBranch query products, true, true⟩
            | .ok text => ⟨modelSuccessBranch parse query products text, true, true⟩
        | none => ⟨noKeyBranch query products, true, false⟩

/-- Helper for `firstBalancedAux`: scan with a brace-depth counter, starting
just after an opening brace (depth 1), returning the accumulated balanced
group once the depth returns to zero. -/
def balancedFrom : List Char → Nat → List Char → Option (List Char)
  | [], _, _ => none
  | c :: rest, depth, acc =>
    if c = braceOpen then balancedFrom rest (depth + 1) (acc ++ [c])
    else if c = braceClose then
      if depth = 1 then some (acc ++ [c])
      else balancedFrom rest (depth - 1) (acc ++ [c])
    else balancedFrom rest depth (acc ++ [c])

/-- Helper for `firstBalanced`: at each opening brace, try to complete a
balanced group; otherwise keep scanning. -/
def firstBalancedAux : List Char → Option (List Char)
  | [] => none
  | c :: rest =>
    if c = braceOpen then
      match balancedFrom rest 1 [c] with
      | some s => some s
      | none => firstBalancedAux rest
    else firstBalancedAux rest

/-- Modelled from the spec: the first balanced brace-delimited substring of
the raw text (spec 4.1 step 2: locate the first balanced brace-delimited
substring). This is the comparator the extraction claim is checked against;
the source code itself uses the greedy `jsonMatch`. -/
def firstBalanced (text : String) : Option String :=
  (firstBalancedAux text.data).map (fun l => ⟨l⟩)

/-- A sample catalog record used by concrete checks below. -/
def pumpProduct : Product :=
  { sku := "WP123", name := "Drain Pump", category := "Washer Parts",
    manufacturer := "Whirlpool", price := "49.99", in_stock := true }

/-- A sample catalog record that matches the query "whirlpool" through its
manufacturer field only. -/
def manufacturerOnlyProduct : Product :=
  { sku := "GE555", name := "Door Gasket", category := "Dryer Parts",
    manufacturer := "Whirlpool", price := "19.99", in_stock := false }

/-- A parse oracle that echoes the extracted substring back as the answer
with empty SKU and suggestion arrays, making visible which substring the
handler hands to the external JSON parser. -/
def echoParse : String → Option AiRaw :=
  fun s => some { answer := some s, productSkus := some [], suggestions := some [] }

theorem filter_contains_nil (products : List Product) :
    products.filter (fun p => ([] : List String).contains p.sku) = [] := by
  induction products with
  | nil => rfl
  | cons p ps ih => simp [List.filter, ih]

theorem mapSkus_nil (products : List Product) : mapSkus products [] = [] := by
  simp [mapSkus, filter_contains_nil]

theorem firstIdxOf_eq_some (c : Char) (cs : List Char) (i : Nat)
    (h : firstIdxOf c cs = some i) :
    ∃ u v, cs = u ++ c :: v ∧ u.length = i ∧ c ∉ u := by
  induction cs generalizing i with
  | nil => simp [firstIdxOf] at h
  | cons a as ih =>
    by_cases hac : a = c
    · subst hac
      simp [firstIdxOf] at h
      exact ⟨[], as, rfl, by simp [h.symm], by simp⟩
    · rw [firstIdxOf, if_neg hac, Option.map_eq_some'] at h
      obtain ⟨j, hj, hji⟩ := h
      obtain ⟨u, v, h1, h2, h3⟩ := ih j hj
      refine ⟨a :: u, v, by simp [h1], by simp [h2, hji.symm], ?_⟩
      simp [h3]
      exact fun hca => hac hca.symm

theorem lastIdxOf_eq_some (c : Char) (cs : List Char) (j : Nat)
    (h : lastIdxOf c cs = some j) :
    ∃ u v, cs = u ++ c :: v ∧ u.length = j ∧ c ∉ v := by
  rw [lastIdxOf, Option.map_eq_some'] at h
  obtain ⟨k, hk, hkj⟩ := h
  obtain ⟨u, v, h1, h2, h3⟩ := firstIdxOf_eq_some c cs.reverse k hk
  refine ⟨v.reverse, u.reverse, ?_, ?_, by simpa using h3⟩
  · have := congrArg List.reverse h1
    simpa [List.reverse_append] using this
  · have hlen := congrArg List.length h1
    simp at hlen
    have : v.length = cs.length - 1 - k := by omega
    simpa [this] using hkj

/-- C1 (amended): for every request whose query is missing or is the empty
string, the relay returns the InvalidInput 400 response and attempts neither
the catalog fetch nor the model call. The original claim also covered
whitespace-only queries, but those pass the truthiness guard and are
processed normally (see the counterexample). -/
theorem c1_empty_or_missing_rejected (geminiKey : Option String) (q : Option String)
    (fetch : FetchOutcome) (model : ModelOutcome) (parse : String → Option AiRaw)
    (h : q = none ∨ q = some "") :
    POST geminiKey (.ok q) fetch model parse = ⟨invalidInputResponse, false, false⟩ := by
  rcases h with h | h <;> subst h <;> rfl

/-- Witness for the C1 theorem at concrete inputs. -/
theorem c1_empty_or_missing_rejected_witness :
    POST (some "key") (.ok (some "")) (.ok [pumpProduct]) .err (fun _ => none) =
      ⟨invalidInputResponse, false, false⟩ :=
  c1_empty_or_missing_rejected (some "key") (some "") (.ok [pumpProduct]) .err
    (fun _ => none) (Or.inr rfl)

/-- C1 counterexample: the whitespace-only query " " is not rejected — the
handler proceeds past the guard, attempts the catalog fetch, and returns a
status-200 response instead of the InvalidInput 400. -/
theorem c1_whitespace_counterexample :
    (POST none (.ok (some " ")) (.ok []) .err (fun _ => none)).catalogFetchAttempted = true ∧
    (POST none (.ok (some " ")) (.ok []) .err (fun _ => none)).response.status = 200 := by
  exact ⟨rfl, rfl⟩

/-- C5 (amended): the outer-catch 500 failure response carries exactly the
shape with error, answer, empty recommendedProducts and the three-element
suggestion pool; the InvalidInput 400 response, however, carries ONLY the
error field and none of the other three. -/
theorem c5_failure_shapes (geminiKey : Option String) (fetch : FetchOutcome)
    (model : ModelOutcome) (parse : String → Option AiRaw) :
    POST geminiKey .malformed fetch model parse =
      ⟨{ status := 500, error := some "Failed to process query",
         answer := some "Sorry, I encountered an error. Please try again.",
         recommendedProducts := some [],
         relatedSuggestions :=
           some ["Try a simpler search", "Contact support", "Browse categories"] },
       false, false⟩ ∧
    POST geminiKey (.ok none) fetch model parse =
      ⟨{ status := 400, error := some "Query is required",
         answer := none, recommendedProducts := none, relatedSuggestions := none },
       false, false⟩ :=
  ⟨rfl, rfl⟩

/-- C5 counterexample: the InvalidInput 400 response body carries only the
error field, not the answer, recommendedProducts and relatedSuggestions
fields the claim ascribes to every failure response. -/
theorem c5_invalid_input_counterexample :
    (POST none (.ok none) (.ok []) .err (fun _ => none)).response.status = 400 ∧
    (POST none (.ok none) (.ok []) .err (fun _ => none)).response.answer = none ∧
    (POST none (.ok none) (.ok []) .err (fun _ => none)).response.recommendedProducts = none ∧
    (POST none (.ok none) (.ok []) .err (fun _ => none)).response.relatedSuggestions = none :=
  ⟨rfl, rfl, rfl, rfl⟩

/-- C9: mapping model-returned SKUs to product records is deterministic —
the same collection and SKU list always yield the same result — and the
result is a subset of the fetched collection in the collection's original
order (a sublist). -/
theorem c9_sku_mapping_deterministic (products : List Product) (skus : List String) :
    mapSkus products skus = mapSkus products skus ∧
    (mapSkus products skus).Sublist products :=
  ⟨rfl, (List.take_sublist _ _).trans (List.filter_sublist _)⟩

/-- C10: on every path the recommendedProducts list of the returned body has
at most 5 entries (a response that carries no such field counts as 0). -/
theorem c10_recommended_at_most_five (geminiKey : Option String) (body : BodyOutcome)
    (fetch : FetchOutcome) (model : ModelOutcome) (parse : String → Option AiRaw) :
    ((POST geminiKey body fetch model parse).response.recommendedProducts.getD []).length ≤ 5 := by
  cases body with
  | malformed => simp [POST, errorResponse]
  | ok q =>
    cases q with
    | none => simp [POST, invalidInputResponse]
    | some query =>
      by_cases hq : query = ""
      · simp [POST, hq, invalidInputResponse]
      · cases geminiKey with
        | none => simp [POST, hq, noKeyBranch, basicFilterFour]
        | some key =>
          by_cases hk : key = ""
          · simp [POST, hq, hk, noKeyBranch, basicFilterFour]
          · cases model with
            | err => simp [POST, hq, hk, modelErrorBranch, basicFilterThree]
            | ok text =>
              have hbound : ∀ ps : List Product,
                  ((modelSuccessBranch parse query ps text).recommendedProducts.getD
                    []).length ≤ 5 := by
                intro ps
                cases hps : (aiParse parse text).productSkus with
                | none =>
                  simp only [modelSuccessBranch, hps, Option.getD_some]
                  rw [if_pos (show ([] : List Product).length = 0 from rfl)]
                  rw [basicFilterThree, List.length_take]
                  omega
                | some skus =>
                  simp only [modelSuccessBranch, hps, Option.getD_some]
                  split
                  · rw [basicFilterThree, List.length_take]
                    omega
                  · rw [mapSkus, List.length_take]
                    omega
              cases fetch with
              | err => simpa [POST, hq, hk] using hbound []
              | ok ps => simpa [POST, hq, hk] using hbound ps

/-- C3: when the model credential is absent, recommendedProducts is exactly
the sublist of the fetched collection whose name, category, sku or
manufacturer contains the query case-insensitively, in the original order,
capped at the first 5 matches, and the answer is the template reporting the
match count and, when a match exists, the top match's name, sku and price. -/
theorem c3_no_credential_path (query : String) (products : List Product)
    (model : ModelOutcome) (parse : String → Option AiRaw) (hq : query ≠ "") :
    (POST none (.ok (some query)) (.ok products) model parse).response =
      { status := 200, error := none,
        answer := some (noKeyAnswer query ((products.filter (fun p =>
          strIncludes (lowerStr p.name) (lowerStr query) ||
          strIncludes (lowerStr p.category) (lowerStr query) ||
          strIncludes (lowerStr p.sku) (lowerStr query) ||
          strIncludes (lowerStr p.manufacturer) (lowerStr query))).take 5)),
        recommendedProducts := some ((products.filter (fun p =>
          strIncludes (lowerStr p.name) (lowerStr query) ||
          strIncludes (lowerStr p.category) (lowerStr query) ||
          strIncludes (lowerStr p.sku) (lowerStr query) ||
          strIncludes (lowerStr p.manufacturer) (lowerStr query))).take 5),
        relatedSuggestions := some noKeySuggestions } := by
  simp only [POST]
  rw [if_neg hq]
  rfl

/-- Witness for C3 at the spec scenario: query "Whirlpool" with no model
credential and a one-record catalog matching through the manufacturer
field; the record is recommended and the answer reports the 1-match count
with the top result's name, sku and price. -/
theorem c3_no_credential_path_witness :
    (POST none (.ok (some "Whirlpool")) (.ok [pumpProduct]) .err (fun _ => none)).response =
      { status := 200, error := none,
        answer := some
          "Found 1 products matching \"Whirlpool\". Top result: Drain Pump (WP123) - $49.99",
        recommendedProducts := some [pumpProduct],
        relatedSuggestions :=
          some ["Try searching by brand", "Look for specific part types", "Check compatibility"] } :=
  (c3_no_credential_path "Whirlpool" [pumpProduct] .err (fun _ => none)
    (by decide)).trans (by decide)

/-- C2 (amended): when extraction or parsing of the model text fails, the
degraded object carries empty SKU and suggestion arrays, and those empty
arrays are truthy in JavaScript: relatedSuggestions is therefore the EMPTY
list rather than the fixed default set, and recommendedProducts is the
three-field substring-fallback result rather than necessarily empty. -/
theorem c2_parse_failure_degrade (parse : String → Option AiRaw)
    (key query text : String) (products : List Product)
    (hk : key ≠ "") (hq : query ≠ "")
    (hp : (jsonMatch text).bind parse = none) :
    (POST (some key) (.ok (some query)) (.ok products) (.ok text) parse).response =
      { status := 200, error := none,
        answer := some (orDefaultStr (some ⟨text.data.take 500⟩)
          (defaultAiAnswer (basicFilterThree products (lowerStr query)).length)),
        recommendedProducts := some (basicFilterThree products (lowerStr query)),
        relatedSuggestions := some [] } := by
  have hAi : aiParse parse text = degradeRaw text := by
    unfold aiParse
    cases hjm : jsonMatch text with
    | none => rfl
    | some s =>
      rw [hjm, Option.some_bind] at hp
      simp [hp]
  have hzero : ∀ ps : List Product, mapSkus ps [] = [] := mapSkus_nil
  simp [POST, hq, hk, modelSuccessBranch, hAi, degradeRaw, hzero]

/-- Witness for C2 at concrete inputs: the model text "no json here" has no
brace-delimited substring, so extraction fails; the catalog's pump record
matches the query "pump" and is recommended, and the suggestions are empty. -/
theorem c2_parse_failure_degrade_witness :
    (POST (some "k") (.ok (some "pump")) (.ok [pumpProduct]) (.ok "no json here")
        (fun _ => none)).response =
      { status := 200, error := none,
        answer := some "no json here",
        recommendedProducts := some [pumpProduct],
        relatedSuggestions := some [] } :=
  (c2_parse_failure_degrade (fun _ => none) "k" "pump" "no json here" [pumpProduct]
    (by decide) (by decide) (by decide)).trans (by decide)

/-- C2 counterexample: for the unparseable model text "no json here" and a
catalog whose record matches the query, recommendedProducts is NOT empty
(the fallback filter populated it) and relatedSuggestions is the empty list,
NOT the fixed default suggestion set. -/
theorem c2_counterexample :
    (POST (some "k") (.ok (some "pump")) (.ok [pumpProduct]) (.ok "no json here")
        (fun _ => none)).response.recommendedProducts = some [pumpProduct] ∧
    some [pumpProduct] ≠ some ([] : List Product) ∧
    (POST (some "k") (.ok (some "pump")) (.ok [pumpProduct]) (.ok "no json here")
        (fun _ => none)).response.relatedSuggestions = some [] ∧
    some ([] : List String) ≠ some aiDefaultSuggestions := by
  exact ⟨by decide, by decide, by decide, by decide⟩

/-- C4 (amended): only the no-credential fallback filters over all four
fields (name, category, sku, manufacturer); the model-error fallback and
the zero-SKU fallback filter over name, category and sku only, omitting the
manufacturer field. -/
theorem c4_fallback_fields (key query text : String) (products : List Product)
    (parse : String → Option AiRaw) (r : AiRaw) (skus : List String)
    (hk : key ≠ "") (hq : query ≠ "")
    (hp : (jsonMatch text).bind parse = some r)
    (hr : r.productSkus = some skus)
    (hz : mapSkus products skus = []) :
    (POST none (.ok (some query)) (.ok products) .err parse).response.recommendedProducts =
      some ((products.filter (fun p =>
        strIncludes (lowerStr p.name) (lowerStr query) ||
        strIncludes (lowerStr p.category) (lowerStr query) ||
        strIncludes (lowerStr p.sku) (lowerStr query) ||
        strIncludes (lowerStr p.manufacturer) (lowerStr query))).take 5) ∧
    (POST (some key) (.ok (some query)) (.ok products) .err parse).response.recommendedProducts =
      some ((products.filter (fun p =>
        strIncludes (lowerStr p.name) (lowerStr query) ||
        strIncludes (lowerStr p.category) (lowerStr query) ||
        strIncludes (lowerStr p.sku) (lowerStr query))).take 5) ∧
    (POST (some key) (.ok (some query)) (.ok products) (.ok text)
        parse).response.recommendedProducts =
      some ((products.filter (fun p =>
        strIncludes (lowerStr p.name) (lowerStr query) ||
        strIncludes (lowerStr p.category) (lowerStr query) ||
        strIncludes (lowerStr p.sku) (lowerStr query))).take 5) := by
  have hAi : aiParse parse text = r := by
    unfold aiParse
    cases hjm : jsonMatch text with
    | none => rw [hjm, Option.none_bind] at hp; exact absurd hp (by simp)
    | some s =>
      rw [hjm, Option.some_bind] at hp
      simp [hp]
  refine ⟨?_, ?_, ?_⟩
  · simp only [POST]
    rw [if_neg hq]
    rfl
  · simp only [POST]
    rw [if_neg hq, if_neg hk]
    rfl
  · simp only [POST]
    rw [if_neg hq, if_neg hk]
    have h3 : (modelSuccessBranch parse query products text).recommendedProducts =
        some (basicFilterThree products (lowerStr query)) := by
      simp only [modelSuccessBranch, hAi, hr, hz]
      rfl
    exact h3

/-- Witness for C4 at concrete inputs: the parse oracle returns the SKU list
["NOPE"] matching nothing, so the zero-SKU fallback fires; the catalog's
single record matches "whirlpool" through its manufacturer only, so the two
three-field paths recommend nothing while the four-field path recommends it. -/
theorem c4_fallback_fields_witness :
    (POST none (.ok (some "whirlpool")) (.ok [manufacturerOnlyProduct]) .err
        (fun _ => some { answer := none, productSkus := some ["NOPE"], suggestions := none })
        ).response.recommendedProducts = some [manufacturerOnlyProduct] ∧
    (POST (some "k") (.ok (some "whirlpool")) (.ok [manufacturerOnlyProduct]) .err
        (fun _ => some { answer := none, productSkus := some ["NOPE"], suggestions := none })
        ).response.recommendedProducts = some [] ∧
    (POST (some "k") (.ok (some "whirlpool")) (.ok [manufacturerOnlyProduct]) (.ok "\x7bx\x7d")
        (fun _ => some { answer := none, productSkus := some ["NOPE"], suggestions := none })
        ).response.recommendedProducts = some [] := by
  have h := c4_fallback_fields "k" "whirlpool" "\x7bx\x7d" [manufacturerOnlyProduct]
    (fun _ => some { answer := none, productSkus := some ["NOPE"], suggestions := none })
    { answer := none, productSkus := some ["NOPE"], suggestions := none } ["NOPE"]
    (by decide) (by decide) (by decide) rfl (by decide)
  refine ⟨h.1.trans (by decide), h.2.1.trans (by decide), h.2.2.trans (by decide)⟩

/-- C4 counterexample: on the model-error fallback path, the query
"whirlpool" fails to match a record whose only matching field is its
manufacturer, so that path demonstrably does not filter over all four
fields — the four-field filter would have selected the record. -/
theorem c4_counterexample :
    (POST (some "k") (.ok (some "whirlpool")) (.ok [manufacturerOnlyProduct]) .err
        (fun _ => none)).response.recommendedProducts = some [] ∧
    (([manufacturerOnlyProduct].filter (fun p =>
        strIncludes (lowerStr p.name) (lowerStr "whirlpool") ||
        strIncludes (lowerStr p.category) (lowerStr "whirlpool") ||
        strIncludes (lowerStr p.sku) (lowerStr "whirlpool") ||
        strIncludes (lowerStr p.manufacturer) (lowerStr "whirlpool"))).take 5) =
      [manufacturerOnlyProduct] := by
  exact ⟨by decide, by decide⟩

/-- C7 (amended): each fixed suggestion pool holds exactly 3 strings, and a
pool is used on the model-error path, the no-credential path, the
malformed-body path, and the model path when the parsed object lacks a
suggestions field; a model-supplied suggestions array is, however, passed
through at whatever length it has, and the degrade path yields an empty
list (see the counterexample), so not every response carries 3 strings. -/
theorem c7_suggestion_pools (key query text : String) (products : List Product)
    (parse : String → Option AiRaw) (r : AiRaw)
    (hk : key ≠ "") (hq : query ≠ "")
    (hp : (jsonMatch text).bind parse = some r)
    (hr : r.suggestions = none) :
    (POST (some key) (.ok (some query)) (.ok products) .err parse).response.relatedSuggestions =
      some modelErrorSuggestions ∧
    (POST none (.ok (some query)) (.ok products) .err parse).response.relatedSuggestions =
      some noKeySuggestions ∧
    (POST (some key) .malformed (.ok products) .err parse).response.relatedSuggestions =
      some errorSuggestions ∧
    (POST (some key) (.ok (some query)) (.ok products) (.ok text)
        parse).response.relatedSuggestions = some aiDefaultSuggestions ∧
    modelErrorSuggestions.length = 3 ∧ noKeySuggestions.length = 3 ∧
    errorSuggestions.length = 3 ∧ aiDefaultSuggestions.length = 3 := by
  have hAi : aiParse parse text = r := by
    unfold aiParse
    cases hjm : jsonMatch text with
    | none => rw [hjm, Option.none_bind] at hp; exact absurd hp (by simp)
    | some s =>
      rw [hjm, Option.some_bind] at hp
      simp [hp]
  refine ⟨?_, ?_, rfl, ?_, rfl, rfl, rfl, rfl⟩
  · simp only [POST]
    rw [if_neg hq, if_neg hk]
    rfl
  · simp only [POST]
    rw [if_neg hq]
    rfl
  · simp only [POST]
    rw [if_neg hq, if_neg hk]
    have h4 : (modelSuccessBranch parse query products text).relatedSuggestions =
        some aiDefaultSuggestions := by
      simp only [modelSuccessBranch, hAi, hr]
    exact h4

/-- Witness for C7 at concrete inputs: a parse oracle whose parsed object
carries no suggestions field. -/
theorem c7_suggestion_pools_witness :
    (POST (some "k") (.ok (some "q")) (.ok []) .err
        (fun _ => some { answer := none, productSkus := none, suggestions := none })
        ).response.relatedSuggestions = some modelErrorSuggestions ∧
    (POST none (.ok (some "q")) (.ok []) .err
        (fun _ => some { answer := none, productSkus := none, suggestions := none })
        ).response.relatedSuggestions = some noKeySuggestions ∧
    (POST (some "k") .malformed (.ok []) .err
        (fun _ => some { answer := none, productSkus := none, suggestions := none })
        ).response.relatedSuggestions = some errorSuggestions ∧
    (POST (some "k") (.ok (some "q")) (.ok []) (.ok "\x7bx\x7d")
        (fun _ => some { answer := none, productSkus := none, suggestions := none })
        ).response.relatedSuggestions = some aiDefaultSuggestions ∧
    modelErrorSuggestions.length = 3 ∧ noKeySuggestions.length = 3 ∧
    errorSuggestions.length = 3 ∧ aiDefaultSuggestions.length = 3 :=
  c7_suggestion_pools "k" "q" "\x7bx\x7d" []
    (fun _ => some { answer := none, productSkus := none, suggestions := none })
    { answer := none, productSkus := none, suggestions := none }
    (by decide) (by decide) (by decide) rfl

/-- C7 counterexample: after a parse failure the degraded object carries an
empty (but truthy) suggestions array, so the response holds 0 suggestion
strings rather than 3. -/
theorem c7_counterexample :
    ((POST (some "k") (.ok (some "zzz")) (.ok []) (.ok "plain text")
        (fun _ => none)).response.relatedSuggestions.map List.length) = some 0 := by
  decide

/-- C8: when the catalog fetch fails the handler proceeds with the empty
collection: for every non-empty query, on every credential/model/parse
combination, it still returns a status-200 response whose
recommendedProducts is the empty list, with an answer and suggestions. -/
theorem c8_catalog_failure_degrades (geminiKey : Option String) (query : String)
    (model : ModelOutcome) (parse : String → Option AiRaw) (hq : query ≠ "") :
    (POST geminiKey (.ok (some query)) .err model parse).response.recommendedProducts = some [] ∧
    (POST geminiKey (.ok (some query)) .err model parse).response.status = 200 ∧
    ((POST geminiKey (.ok (some query)) .err model parse).response.answer).isSome = true ∧
    ((POST geminiKey (.ok (some query)) .err model parse).response.relatedSuggestions).isSome
      = true := by
  cases geminiKey with
  | none => refine ⟨?_, ?_, ?_, ?_⟩ <;> (simp only [POST]; rw [if_neg hq]; rfl)
  | some key =>
    by_cases hk : key = ""
    · subst hk
      refine ⟨?_, ?_, ?_, ?_⟩ <;> (simp only [POST]; rw [if_neg hq]; rfl)
    · cases model with
      | err => refine ⟨?_, ?_, ?_, ?_⟩ <;> (simp only [POST]; rw [if_neg hq, if_neg hk]; rfl)
      | ok text =>
        have hrec : (modelSuccessBranch parse query [] text).recommendedProducts = some [] := by
          cases hps : (aiParse parse text).productSkus with
          | none => simp only [modelSuccessBranch, hps]; rfl
          | some skus => simp only [modelSuccessBranch, hps]; rfl
        refine ⟨?_, ?_, ?_, ?_⟩
        · simp only [POST]
          rw [if_neg hq, if_neg hk]
          exact hrec
        · simp only [POST]; rw [if_neg hq, if_neg hk]; rfl
        · simp only [POST]; rw [if_neg hq, if_neg hk]; rfl
        · simp only [POST]; rw [if_neg hq, if_neg hk]; rfl

/-- Witness for C8 at concrete inputs: failed catalog fetch with a
credential, a successful model call and a throwing parse. -/
theorem c8_catalog_failure_degrades_witness :
    (POST (some "k") (.ok (some "pump")) .err (.ok "t")
        (fun _ => none)).response.recommendedProducts = some [] ∧
    (POST (some "k") (.ok (some "pump")) .err (.ok "t")
        (fun _ => none)).response.status = 200 ∧
    ((POST (some "k") (.ok (some "pump")) .err (.ok "t")
        (fun _ => none)).response.answer).isSome = true ∧
    ((POST (some "k") (.ok (some "pump")) .err (.ok "t")
        (fun _ => none)).response.relatedSuggestions).isSome = true :=
  c8_catalog_failure_degrades (some "k") "pump" (.ok "t") (fun _ => none) (by decide)

/-- C6 (amended): the extraction is greedy rather than first-balanced —
whenever it succeeds, the substring handed to the external JSON parser runs
from the FIRST opening brace of the model text to the LAST closing brace:
it begins with an opening brace, ends with a closing brace, no opening
brace occurs before it and no closing brace occurs after it. For texts
with braces after the first balanced group, this differs from the first
balanced brace-delimited substring (see the counterexample). -/
theorem c6_greedy_extraction (text s : String) (h : jsonMatch text = some s) :
    ∃ pre post, text.data = pre ++ s.data ++ post ∧
      braceOpen ∉ pre ∧ braceClose ∉ post ∧
      s.data.head? = some braceOpen ∧ s.data.getLast? = some braceClose := by
  cases hf : firstIdxOf braceOpen text.data with
  | none =>
    simp only [jsonMatch, hf] at h
    exact Option.noConfusion h
  | some i =>
    cases hl : lastIdxOf braceClose text.data with
    | none =>
      simp only [jsonMatch, hf, hl] at h
      exact Option.noConfusion h
    | some j =>
      simp only [jsonMatch, hf, hl] at h
      by_cases hij : i < j
      · rw [if_pos hij] at h
        have hs : s.data = (text.data.drop i).take (j - i + 1) := by
          have h2 := Option.some.inj h
          rw [← h2]
        obtain ⟨u, v, hu, hulen, hunot⟩ := firstIdxOf_eq_some braceOpen text.data i hf
        obtain ⟨t, w, ht, htlen, hwnot⟩ := lastIdxOf_eq_some braceClose text.data j hl
        have hdatai : text.data.drop i = braceOpen :: v := by
          rw [hu]
          exact List.drop_left' hulen
        have hdata2 : text.data.drop i = t.drop i ++ braceClose :: w := by
          rw [ht, List.drop_append_eq_append_drop]
          have h0 : i - t.length = 0 := by omega
          rw [h0, List.drop_zero]
        have hlen : (t.drop i).length = j - i := by
          rw [List.length_drop, htlen]
        have hsd : (text.data.drop i).take (j - i + 1) = t.drop i ++ [braceClose] := by
          rw [hdata2, List.take_append_eq_append_take]
          have h1 : j - i + 1 - (t.drop i).length = 1 := by omega
          rw [List.take_of_length_le (by omega), h1]
          rfl
        have hut : u = t.take i := by
          have h1 : u = text.data.take i := by
            rw [hu]
            exact (List.take_left' hulen).symm
          have h2 : t = text.data.take j := by
            rw [ht]
            exact (List.take_left' htlen).symm
          rw [h1, h2, List.take_take]
          congr 1
          omega
        refine ⟨u, w, ?_, hunot, hwnot, ?_, ?_⟩
        · rw [hs, hsd, hut]
          calc text.data = t ++ braceClose :: w := ht
            _ = (t.take i ++ t.drop i) ++ braceClose :: w := by rw [List.take_append_drop]
            _ = t.take i ++ (t.drop i ++ [braceClose]) ++ w := by
                simp only [List.append_assoc, List.singleton_append]
        · rw [hs, hdatai]
          rfl
        · rw [hs, hsd]
          exact List.getLast?_concat _
      · rw [if_neg hij] at h
        exact Option.noConfusion h

/-- Witness for C6 at a concrete input: on the text a-brace-b-brace-c the
extraction succeeds and yields the decomposition. -/
theorem c6_greedy_extraction_witness :
    ∃ pre post, (String.data "a\x7bb\x7dc") = pre ++ (String.data "\x7bb\x7d") ++ post ∧
      braceOpen ∉ pre ∧ braceClose ∉ post ∧
      (String.data "\x7bb\x7d").head? = some braceOpen ∧
      (String.data "\x7bb\x7d").getLast? = some braceClose :=
  c6_greedy_extraction "a\x7bb\x7dc" "\x7bb\x7d" (by decide)

/-- C6 counterexample: on a model text holding two balanced brace groups,
the first balanced brace-delimited substring is the first group alone, but
the handler extracts and parses the greedy span covering both groups — the
echo parse oracle shows the full span arriving at the parser as the answer
field. -/
theorem c6_counterexample :
    firstBalanced "\x7b\x7d \x7b\x7d" = some "\x7b\x7d" ∧
    jsonMatch "\x7b\x7d \x7b\x7d" = some "\x7b\x7d \x7b\x7d" ∧
    (POST (some "k") (.ok (some "q")) (.ok []) (.ok "\x7b\x7d \x7b\x7d")
        echoParse).response.answer = some "\x7b\x7d \x7b\x7d" ∧
    some ("\x7b\x7d \x7b\x7d" : String) ≠ some ("\x7b\x7d" : String) := by
  exact ⟨by decide, by decide, by decide, by decide⟩
